import Mathlib

/-!
Shallow embedding of `src/client/src/load.rs` from the `lo_native`
repository: the `OfficeConvertLoadBalancer` selection/backoff/notify engine.

Modelling conventions:
* `Instant` and `Duration` are `Nat` (nanoseconds).  Rust's
  `Instant::duration_since` saturates at zero when the other instant is
  later, which matches `Nat` subtraction.
* The backend handle (`OfficeConvertClient`) is an opaque type parameter
  `γ`; its fallible operations `is_busy : Result<bool>` and
  `convert : Result<Bytes, RequestError>` are supplied by an environment,
  one `SlotEnv` per scanned slot index, since their outcomes depend on the
  external backend, not on balancer state.  `RequestError` and the output
  bytes are type parameters `ε` and `β`.
* Concurrency is resolved into the environment as well: whether
  `try_lock` succeeds for a slot, whether a lock is obtained within the
  1-second timeout inside `is_externally_blocked`, and whether the
  `free_notify` notifier fires before `notify_timeout` are all
  environment-provided booleans.
* `tokio::sync::Notify::notify_waiters`, `sleep` and the atomic
  counter updates are recorded as events in an explicit trace so that
  ordering claims can be stated.
-/

/-- One nanosecond-denominated duration per `std::time::Duration::from_secs`. -/
def Duration.from_secs (s : Nat) : Nat := s * 1000000000

/-- Mirror of `struct LoadBalancedClient`: the backend client handle paired
with the last time the server reported as busy externally
(`busy_externally_at : Option<Instant>`). -/
structure LoadBalancedClient (γ : Type) where
  client : γ
  busy_externally_at : Option Nat
  deriving Repr, DecidableEq

/-- Mirror of `struct LoadBalancerTiming`. -/
structure LoadBalancerTiming where
  retry_busy_check_after : Nat
  retry_single_external : Nat
  notify_timeout : Nat
  deriving Repr, DecidableEq

/-- Mirror of `impl Default for LoadBalancerTiming`: 5s, 1s, 120s. -/
def LoadBalancerTiming.default : LoadBalancerTiming :=
  { retry_busy_check_after := Duration.from_secs 5
    retry_single_external := Duration.from_secs 1
    notify_timeout := Duration.from_secs 120 }

/-- Mirror of `enum LoadBalanceError`. -/
inductive LoadBalanceError where
  | NoServers
  deriving Repr, DecidableEq

/-- Mirror of `struct OfficeConvertLoadBalancer` /
`OfficeConvertLoadBalancerInner`: the client pool, the `active` counter and
the timing configuration.  `free_notify : Notify` carries no persisted
state, so it has no field here; its firing is traced as an event. -/
structure OfficeConvertLoadBalancer (γ : Type) where
  clients : List (LoadBalancedClient γ)
  active : Nat
  timing : LoadBalancerTiming
  deriving Repr, DecidableEq

/-- Mirror of `OfficeConvertLoadBalancer::new_with_timing`: wraps every
provided client into a `LoadBalancedClient` with `busy_externally_at: None`,
and starts the `active` counter at zero (`AtomicUsize::new(0)`). -/
def new_with_timing (clients : List γ) (timing : LoadBalancerTiming) :
    OfficeConvertLoadBalancer γ :=
  { clients := clients.map fun client =>
      { client := client, busy_externally_at := none }
    active := 0
    timing := timing }

/-- Mirror of `OfficeConvertLoadBalancer::new`:
`Self::new_with_timing(clients, Default::default())`. -/
def OfficeConvertLoadBalancer.new (clients : List γ) :
    OfficeConvertLoadBalancer γ :=
  new_with_timing clients LoadBalancerTiming.default

/-- Body of `OfficeConvertLoadBalancer::is_externally_blocked` from slot
index `i` on.  `acq i` tells whether the 1-second
`timeout(Duration::from_secs(1), client.lock())` for slot `i` succeeds.
The pair returned is (result, clients after the call): each visited slot's
lock guard is dropped without mutation, so visited slots are passed through
unchanged, and an early `return false` leaves the remaining slots untouched
(and unexamined). -/
def isExternallyBlockedGo (acq : Nat → Bool) :
    Nat → List (LoadBalancedClient γ) →
      Bool × List (LoadBalancedClient γ)
  | _, [] => (true, [])
  | i, client :: rest =>
    match acq i with
    -- Couldn't obtain the lock within the timeout: `return false`
    | false => (false, client :: rest)
    | true =>
      match client.busy_externally_at with
      -- `client.busy_externally_at.is_none()`: `return false`
      | none => (false, client :: rest)
      | some _ =>
        let r := isExternallyBlockedGo acq (i + 1) rest
        (r.1, client :: r.2)

/-- Mirror of `OfficeConvertLoadBalancer::is_externally_blocked`.  Returns
the boolean result together with the (unchanged) client pool after the
call. -/
def is_externally_blocked (clients : List (LoadBalancedClient γ))
    (acq : Nat → Bool) : Bool × List (LoadBalancedClient γ) :=
  isExternallyBlockedGo acq 0 clients

/-- Per-slot environment for one pass of the scan loop in
`OfficeConvertLoadBalancer::convert` (`load.rs` lines 145-205):
`try_lock_ok` is whether `client.try_lock()` succeeds for this slot (it
fails when another caller holds the slot); `now` is `Instant::now()` taken
right after acquisition; `is_busy` is the outcome of
`client.client.is_busy().await`; `convert_result` is the outcome of
`client.client.convert(file).await` should the slot be selected. -/
structure SlotEnv (ε β : Type) where
  try_lock_ok : Bool
  now : Nat
  is_busy : Except Unit Bool
  convert_result : Except ε β
  deriving Repr

/-- Observable events of one scan pass, in program order. -/
inductive ScanEvent where
  | lock_failed (i : Nat)
  | skip_recent_busy (i : Nat)
  | probed_busy (i : Nat)
  | probed_free (i : Nat)
  | probe_failed (i : Nat)
  | clear_busy (i : Nat)
  | inc_active
  | convert_call (i : Nat)
  | notify_waiters
  | dec_active
  deriving Repr, DecidableEq

/-- Outcome of one pass of the `for (index, client) in ... .enumerate()`
scan: either a slot was selected and the backend conversion ran to
completion (the `return response` path), or the scan exhausted the pool. -/
inductive ScanResult (γ ε β : Type) where
  | selected (i : Nat) (response : Except ε β)
      (clients : List (LoadBalancedClient γ)) (active : Nat)
      (trace : List ScanEvent)
  | exhausted (clients : List (LoadBalancedClient γ)) (active : Nat)
      (trace : List ScanEvent)
  deriving Repr

/-- Prepends a skipped slot (left in state `c`) and its event to a scan
outcome of the remaining slots. -/
def ScanResult.prepend (c : LoadBalancedClient γ) (e : ScanEvent) :
    ScanResult γ ε β → ScanResult γ ε β
  | .selected i r cs a tr => .selected i r (c :: cs) a (e :: tr)
  | .exhausted cs a tr => .exhausted (c :: cs) a (e :: tr)

/-- The client pool as left by a scan pass. -/
def ScanResult.clientsOut : ScanResult γ ε β → List (LoadBalancedClient γ)
  | .selected _ _ cs _ _ => cs
  | .exhausted cs _ _ => cs

/-- The event trace of a scan pass. -/
def ScanResult.trace : ScanResult γ ε β → List ScanEvent
  | .selected _ _ _ _ tr => tr
  | .exhausted _ _ tr => tr

/-- The `load.rs` lines 156-163 check: with `busy_externally_at` set to
some instant, the slot is skipped when `now.duration_since(t)` is still
below `retry_busy_check_after` and there are multiple clients. -/
def shouldSkipBusy (timing : LoadBalancerTiming) (multiple_clients : Bool)
    (c : LoadBalancedClient γ) (now : Nat) : Bool :=
  match c.busy_externally_at with
  | some t =>
    decide (now - t < timing.retry_busy_check_after) && multiple_clients
  | none => false

/-- The event recorded for the `client.client.is_busy().await` call at slot
`i`: a failed probe is logged (`error!`) and treated as busy. -/
def probeEvent (i : Nat) : Except Unit Bool → ScanEvent
  | .ok true => .probed_busy i
  | .ok false => .probed_free i
  | .error _ => .probe_failed i

/-- One pass of the scan loop of `OfficeConvertLoadBalancer::convert`
(`load.rs` lines 145-205), starting at slot index `i` with the listed
remaining clients and the current `active` counter value.
Slot handling, in source order: a failed `try_lock` skips the slot; a
recently-busy slot is skipped when `shouldSkipBusy` holds; otherwise the
busy probe runs, a probe error counting as busy (`Err(err) => true`); a
busy slot gets `busy_externally_at = Some(now)` and is skipped; a free slot
gets `busy_externally_at = None`, `active` is incremented, the conversion
runs, `free_notify.notify_waiters()` fires, `active` is decremented, and
the response is returned. -/
def scanFrom (timing : LoadBalancerTiming) (multiple_clients : Bool)
    (env : Nat → SlotEnv ε β) :
    Nat → List (LoadBalancedClient γ) → Nat → ScanResult γ ε β
  | _, [], active => .exhausted [] active []
  | i, c :: rest, active =>
    let e := env i
    match e.try_lock_ok with
    -- Server is already in use: `Err(_) => continue`
    | false =>
      (scanFrom timing multiple_clients env (i + 1) rest active).prepend
        c (.lock_failed i)
    | true =>
      if shouldSkipBusy timing multiple_clients c e.now then
        (scanFrom timing multiple_clients env (i + 1) rest active).prepend
          c (.skip_recent_busy i)
      else
        let externally_busy :=
          match e.is_busy with
          | .ok value => value
          | .error _ => true
        if externally_busy then
          -- `client.busy_externally_at = Some(now); continue`
          (scanFrom timing multiple_clients env (i + 1) rest active).prepend
            { c with busy_externally_at := some e.now } (probeEvent i e.is_busy)
        else
          -- `client.busy_externally_at = None`, run the conversion, notify,
          -- and `return response`
          .selected i e.convert_result
            ({ c with busy_externally_at := none } :: rest)
            ((active + 1) - 1)
            [probeEvent i e.is_busy, .clear_busy i, .inc_active,
              .convert_call i, .notify_waiters, .dec_active]

/-- A full scan pass over the whole pool, as `convert` performs it:
`multiple_clients` is `total_clients > 1` computed once from the pool. -/
def convertScan (timing : LoadBalancerTiming) (env : Nat → SlotEnv ε β)
    (clients : List (LoadBalancedClient γ)) (active : Nat) :
    ScanResult γ ε β :=
  scanFrom timing (decide (clients.length > 1)) env 0 clients active

/-- Per-round environment for one iteration of the outer `loop` in
`convert`: the per-slot scan environment, the lock-acquisition outcomes
consumed by the `is_externally_blocked` call, and whether
`free_notify.notified()` fires before `notify_timeout` in the wait
branch. -/
structure ConvertRoundEnv (ε β : Type) where
  slots : Nat → SlotEnv ε β
  blocked_acq : Nat → Bool
  notify_fired : Bool

/-- The backoff action a non-returning round ends with: `poll_sleep d` is
`sleep(retry_single_external)` (duration `d`); `wait_notify d fired` is
`timeout(notify_timeout, free_notify.notified())` with bound `d`, `fired`
recording whether the notifier fired before the timeout (the result is
discarded by the code: `_ = timeout(...)`). -/
inductive RoundAction where
  | poll_sleep (d : Nat)
  | wait_notify (d : Nat) (fired : Bool)
  deriving Repr, DecidableEq

/-- Outcome of one iteration of the outer `loop` of `convert`: either the
call returns a response, or the loop continues with the updated pool and
counter after performing a backoff action. -/
inductive ConvertStep (γ ε β : Type) where
  | returned (response : Except ε β)
      (clients : List (LoadBalancedClient γ)) (active : Nat)
      (trace : List ScanEvent)
  | again (clients : List (LoadBalancedClient γ)) (active : Nat)
      (action : RoundAction)
  deriving Repr

/-- One iteration of the outer `loop` of `convert` (`load.rs` lines
144-226): run the scan; on selection return the response; on exhaustion
read the `active` counter, compute `is_externally_blocked`, and either
poll-sleep for `retry_single_external` (when externally blocked or no
conversion is in flight) or wait on the notifier bounded by
`notify_timeout`, then go around again.  Note `convert` itself never
checks for an empty pool and never constructs `LoadBalanceError::NoServers`. -/
def convertStep (timing : LoadBalancerTiming) (env : ConvertRoundEnv ε β)
    (clients : List (LoadBalancedClient γ)) (active : Nat) :
    ConvertStep γ ε β :=
  match convertScan timing env.slots clients active with
  | .selected _ r cs a tr => .returned r cs a tr
  | .exhausted cs a tr =>
    let active_counter := a
    let externally_blocked := (is_externally_blocked cs env.blocked_acq).1
    if externally_blocked || decide (active_counter < 1) then
      .again cs a (.poll_sleep timing.retry_single_external)
    else
      -- `_ = timeout(inner.timing.notify_timeout, inner.free_notify.notified()).await`
      let _fired := env.notify_fired
      let _tr := tr
      .again cs a (.wait_notify timing.notify_timeout env.notify_fired)

/-- Runs the `convert` loop for at most `fuel` rounds, the environment of
round `k` given by `envs k`.  Returns `none` when the loop has not
returned within the given fuel. -/
def convertRun (timing : LoadBalancerTiming)
    (envs : Nat → ConvertRoundEnv ε β) :
    Nat → Nat → List (LoadBalancedClient γ) → Nat → Option (Except ε β)
  | _, 0, _, _ => none
  | round, fuel + 1, clients, active =>
    match convertStep timing (envs round) clients active with
    | .returned r _ _ _ => some r
    | .again cs a _ => convertRun timing envs (round + 1) fuel cs a

/-- Construction of the balancer as the spec describes it (the refinement
target for C10): timing 5s / 1s / 120s and every slot starting with no
busy timestamp and a zero active counter. -/
def newSpec (clients : List γ) : OfficeConvertLoadBalancer γ :=
  { clients := clients.map fun client =>
      { client := client, busy_externally_at := none }
    active := 0
    timing := { retry_busy_check_after := Duration.from_secs 5
                retry_single_external := Duration.from_secs 1
                notify_timeout := Duration.from_secs 120 } }

/-- Generalisation of the `is_externally_blocked` truth condition over the
starting index. -/
theorem isExternallyBlockedGo_true_iff {γ : Type} (acq : Nat → Bool) :
    ∀ (clients : List (LoadBalancedClient γ)) (j : Nat),
      (isExternallyBlockedGo acq j clients).1 = true ↔
        ∀ i, (h : i < clients.length) →
          acq (j + i) = true ∧
            (clients.get ⟨i, h⟩).busy_externally_at ≠ none := by
  intro clients
  induction clients with
  | nil =>
    intro j
    simp [isExternallyBlockedGo]
  | cons c rest ih =>
    intro j
    cases hacq : acq j with
    | false =>
      simp only [isExternallyBlockedGo, hacq]
      constructor
      · intro h; exact absurd h (by simp)
      · intro h
        have h0 := (h 0 (by simp)).1
        rw [Nat.add_zero, hacq] at h0
        exact absurd h0 (by simp)
    | true =>
      cases hbusy : c.busy_externally_at with
      | none =>
        simp only [isExternallyBlockedGo, hacq, hbusy]
        constructor
        · intro h; exact absurd h (by simp)
        · intro h
          have h0 := (h 0 (by simp)).2
          simp only [List.get] at h0
          exact absurd hbusy h0
      | some t =>
        simp only [isExternallyBlockedGo, hacq, hbusy]
        rw [ih (j + 1)]
        constructor
        · intro h i hi
          cases i with
          | zero => exact ⟨by simpa using hacq, by simp [hbusy]⟩
          | succ i =>
            have hrec := h i (by simpa using Nat.lt_of_succ_lt_succ hi)
            constructor
            · have h1 := hrec.1
              have he : j + 1 + i = j + (i + 1) := by omega
              rwa [he] at h1
            · simpa using hrec.2
        · intro h i hi
          have hrec := h (i + 1) (by simpa using Nat.succ_lt_succ hi)
          constructor
          · have h1 := hrec.1
            have he : j + (i + 1) = j + 1 + i := by omega
            rwa [he] at h1
          · simpa using hrec.2

/-- The early-return behaviour of `isExternallyBlockedGo`: once a slot is
contended or found not-busy, the result is `false` no matter what follows
in the list. -/
theorem isExternallyBlockedGo_early_false {γ : Type} (acq : Nat → Bool) :
    ∀ (pre : List (LoadBalancedClient γ)) (c : LoadBalancedClient γ)
      (tail : List (LoadBalancedClient γ)) (j : Nat),
      (∀ i, (h : i < pre.length) →
        acq (j + i) = true ∧ (pre.get ⟨i, h⟩).busy_externally_at ≠ none) →
      (acq (j + pre.length) = false ∨ c.busy_externally_at = none) →
      (isExternallyBlockedGo acq j (pre ++ c :: tail)).1 = false := by
  intro pre
  induction pre with
  | nil =>
    intro c tail j _ hfail
    cases hfail with
    | inl h =>
      have h' : acq j = false := by simpa using h
      simp [isExternallyBlockedGo, h']
    | inr h =>
      cases hacq : acq j with
      | false => simp [isExternallyBlockedGo, hacq]
      | true => simp [isExternallyBlockedGo, hacq, h]
  | cons p ps ih =>
    intro c tail j hpass hfail
    have hp := hpass 0 (by simp)
    simp only [Nat.add_zero, List.get] at hp
    cases hbusy : p.busy_externally_at with
    | none => exact absurd hbusy hp.2
    | some t =>
      simp only [List.cons_append, isExternallyBlockedGo, hp.1, hbusy]
      apply ih c tail (j + 1)
      · intro i hi
        have hrec := hpass (i + 1) (by simpa using Nat.succ_lt_succ hi)
        constructor
        · have h1 := hrec.1
          have he : j + (i + 1) = j + 1 + i := by omega
          rwa [he] at h1
        · simpa using hrec.2
      · cases hfail with
        | inl h =>
          left
          have he : j + (p :: ps).length = j + 1 + ps.length := by
            simp; omega
          rwa [he] at h
        | inr h => right; exact h

/-- The pool is passed through `isExternallyBlockedGo` unchanged. -/
theorem isExternallyBlockedGo_preserves {γ : Type} (acq : Nat → Bool) :
    ∀ (clients : List (LoadBalancedClient γ)) (j : Nat),
      (isExternallyBlockedGo acq j clients).2 = clients := by
  intro clients
  induction clients with
  | nil => intro j; simp [isExternallyBlockedGo]
  | cons c rest ih =>
    intro j
    cases hacq : acq j with
    | false => simp [isExternallyBlockedGo, hacq]
    | true =>
      cases hbusy : c.busy_externally_at with
      | none => simp [isExternallyBlockedGo, hacq, hbusy]
      | some t => simp [isExternallyBlockedGo, hacq, hbusy, ih]

/-- C3: `is_externally_blocked()` returns true iff every slot's lock is
acquired within its 1-second timeout (`acq i = true`) and every acquired
slot has a non-null `busy_externally_at`; and it returns false as soon as
any slot's acquisition times out or any acquired slot has no busy
timestamp, without examining the remaining slots (the tail beyond the
failing slot is universally quantified and irrelevant). -/
theorem is_externally_blocked_spec :
    (∀ (clients : List (LoadBalancedClient Nat)) (acq : Nat → Bool),
      (is_externally_blocked clients acq).1 = true ↔
        ∀ i, (h : i < clients.length) →
          acq i = true ∧
            (clients.get ⟨i, h⟩).busy_externally_at ≠ none) ∧
    (∀ (pre : List (LoadBalancedClient Nat)) (c : LoadBalancedClient Nat)
        (tail : List (LoadBalancedClient Nat)) (acq : Nat → Bool),
      (∀ i, (h : i < pre.length) →
        acq i = true ∧ (pre.get ⟨i, h⟩).busy_externally_at ≠ none) →
      (acq pre.length = false ∨ c.busy_externally_at = none) →
      (is_externally_blocked (pre ++ c :: tail) acq).1 = false) := by
  constructor
  · intro clients acq
    have := isExternallyBlockedGo_true_iff acq clients 0
    simpa [is_externally_blocked] using this
  · intro pre c tail acq hpass hfail
    have := isExternallyBlockedGo_early_false acq pre c tail 0
      (by simpa using hpass) (by simpa using hfail)
    simpa [is_externally_blocked] using this

/-- Witness for C3: a pool whose second slot has no busy timestamp makes
`is_externally_blocked` return false, by the early-return clause. -/
theorem is_externally_blocked_spec_witness :
    (is_externally_blocked
      [⟨0, some 5⟩, ⟨1, none⟩, ⟨2, some 7⟩] (fun _ => true)).1 = false :=
  is_externally_blocked_spec.2 [⟨0, some 5⟩] ⟨1, none⟩ [⟨2, some 7⟩]
    (fun _ => true)
    (by
      intro i h
      have hi : i = 0 := by simpa using Nat.lt_one_iff.mp (by simpa using h)
      subst hi
      exact ⟨rfl, by simp⟩)
    (Or.inr rfl)

/-- C8: `is_externally_blocked` never mutates any slot's
`busy_externally_at` nor any other balancer state: the client pool after
the call equals the pool before it. -/
theorem is_externally_blocked_read_only
    (clients : List (LoadBalancedClient Nat)) (acq : Nat → Bool) :
    (is_externally_blocked clients acq).2 = clients :=
  isExternallyBlockedGo_preserves acq clients 0

/-- C9: on an empty pool, the loop body runs zero times and
`is_externally_blocked` returns true vacuously. -/
theorem is_externally_blocked_empty_pool (acq : Nat → Bool) :
    (is_externally_blocked ([] : List (LoadBalancedClient Nat)) acq).1
      = true := rfl

/-- C1 (refuting evaluation): `convert` has no empty-pool check and never
constructs `LoadBalanceError::NoServers`.  On an empty pool every round
scans nothing, finds the pool vacuously externally blocked (and the branch
guard true regardless of the counter), sleeps `retry_single_external` and
rescans: the loop returns nothing within any number of rounds, for every
environment — in particular it does not fail immediately, and it does
sleep. -/
theorem convert_empty_pool_never_returns :
    ∀ (timing : LoadBalancerTiming) (envs : Nat → ConvertRoundEnv Nat Nat)
      (round fuel active : Nat),
      convertRun (γ := Nat) timing envs round fuel [] active = none ∧
      convertStep (γ := Nat) timing (envs round) [] active =
        .again [] active (.poll_sleep timing.retry_single_external) := by
  have hstep : ∀ (timing : LoadBalancerTiming)
      (env : ConvertRoundEnv Nat Nat) (active : Nat),
      convertStep (γ := Nat) timing env [] active =
        .again [] active (.poll_sleep timing.retry_single_external) := by
    intro timing env active
    rfl
  intro timing envs round fuel active
  refine ⟨?_, hstep timing (envs round) active⟩
  induction fuel generalizing round with
  | zero => rfl
  | succ fuel ih =>
    show convertRun timing envs round (fuel + 1) [] active = none
    rw [convertRun, hstep timing (envs round) active]
    exact ih (round + 1)

/-- Inversion of `ScanResult.prepend` at a `selected` outcome. -/
theorem selected_prepend_inv {γ ε β : Type} (c : LoadBalancedClient γ)
    (e : ScanEvent) (res : ScanResult γ ε β) (i : Nat) (r : Except ε β)
    (out : List (LoadBalancedClient γ)) (a : Nat) (tr : List ScanEvent)
    (h : res.prepend c e = .selected i r out a tr) :
    ∃ cs0 tr0, res = .selected i r cs0 a tr0 ∧
      out = c :: cs0 ∧ tr = e :: tr0 := by
  cases res with
  | selected i0 r0 cs0 a0 tr0 =>
    simp only [ScanResult.prepend] at h
    cases h
    exact ⟨cs0, tr0, rfl, rfl, rfl⟩
  | exhausted cs0 a0 tr0 =>
    simp only [ScanResult.prepend] at h
    cases h

/-- Anatomy of a scan pass that selects a slot: the response is the
environment's conversion result for the selected index, verbatim; the
counter, incremented before the call and decremented after, is back at its
initial value; the selected slot was acquired and its probe reported free;
the trace ends with the probe-free, clear-busy, increment, conversion,
notify-waiters, decrement events in program order; and the pool decomposes
as a (possibly updated) scanned prefix, the selected slot with its busy
timestamp cleared, and the untouched remaining slots — so no later slot is
examined and no retry happens. -/
theorem scanFrom_selected_decomp {γ ε β : Type}
    (timing : LoadBalancerTiming) (mult : Bool) (env : Nat → SlotEnv ε β) :
    ∀ (clients : List (LoadBalancedClient γ)) (j active i : Nat)
      (r : Except ε β) (out : List (LoadBalancedClient γ)) (a : Nat)
      (tr : List ScanEvent),
      scanFrom timing mult env j clients active = .selected i r out a tr →
      r = (env i).convert_result ∧
      a = active ∧
      (env i).try_lock_ok = true ∧
      (env i).is_busy = .ok false ∧
      (∃ tr', tr = tr' ++ [.probed_free i, .clear_busy i, .inc_active,
        .convert_call i, .notify_waiters, .dec_active]) ∧
      (∃ pre c rest pre',
        clients = pre ++ c :: rest ∧
        i = j + pre.length ∧
        pre'.length = pre.length ∧
        out = pre' ++
          ({ client := c.client, busy_externally_at := none } :: rest)) := by
  intro clients
  induction clients with
  | nil =>
    intro j active i r out a tr h
    simp [scanFrom] at h
  | cons c rest ih =>
    intro j active i r out a tr h
    simp only [scanFrom] at h
    cases htl : (env j).try_lock_ok with
    | false =>
      rw [htl] at h
      simp only [] at h
      obtain ⟨cs0, tr0, hres, hout, htr⟩ :=
        selected_prepend_inv c (.lock_failed j) _ i r out a tr h
      obtain ⟨hr, ha, hlk, hbz, ⟨tr', htr'⟩, pre, csel, rsel, pre', hcl,
        hi, hlen, hcs0⟩ := ih (j + 1) active i r cs0 a tr0 hres
      refine ⟨hr, ha, hlk, hbz, ⟨.lock_failed j :: tr', by simp [htr, htr']⟩,
        c :: pre, csel, rsel, c :: pre', by simp [hcl], by simp [hi]; omega,
        by simp [hlen], by simp [hout, hcs0]⟩
    | true =>
      rw [htl] at h
      simp only [] at h
      cases hskip : shouldSkipBusy timing mult c (env j).now with
      | true =>
        rw [hskip] at h
        simp only [if_true] at h
        obtain ⟨cs0, tr0, hres, hout, htr⟩ :=
          selected_prepend_inv c (.skip_recent_busy j) _ i r out a tr h
        obtain ⟨hr, ha, hlk, hbz, ⟨tr', htr'⟩, pre, csel, rsel, pre', hcl,
          hi, hlen, hcs0⟩ := ih (j + 1) active i r cs0 a tr0 hres
        refine ⟨hr, ha, hlk, hbz,
          ⟨.skip_recent_busy j :: tr', by simp [htr, htr']⟩,
          c :: pre, csel, rsel, c :: pre', by simp [hcl],
          by simp [hi]; omega, by simp [hlen], by simp [hout, hcs0]⟩
      | false =>
        rw [hskip] at h
        simp only [Bool.false_eq_true, if_false] at h
        cases hbusy : (env j).is_busy with
        | error u =>
          rw [hbusy] at h
          simp only [] at h
          obtain ⟨cs0, tr0, hres, hout, htr⟩ :=
            selected_prepend_inv _ _ _ i r out a tr h
          obtain ⟨hr, ha, hlk, hbz, ⟨tr', htr'⟩, pre, csel, rsel, pre', hcl,
            hi, hlen, hcs0⟩ := ih (j + 1) active i r cs0 a tr0 hres
          refine ⟨hr, ha, hlk, hbz,
            ⟨probeEvent j (env j).is_busy :: tr', by
              rw [hbusy]; simp [htr, htr', probeEvent, hbusy]⟩,
            c :: pre, csel, rsel,
            { c with busy_externally_at := some (env j).now } :: pre',
            by simp [hcl], by simp [hi]; omega, by simp [hlen],
            by simp [hout, hcs0]⟩
        | ok v =>
          cases v with
          | true =>
            rw [hbusy] at h
            simp only [if_true] at h
            obtain ⟨cs0, tr0, hres, hout, htr⟩ :=
              selected_prepend_inv _ _ _ i r out a tr h
            obtain ⟨hr, ha, hlk, hbz, ⟨tr', htr'⟩, pre, csel, rsel, pre',
              hcl, hi, hlen, hcs0⟩ := ih (j + 1) active i r cs0 a tr0 hres
            refine ⟨hr, ha, hlk, hbz,
              ⟨probeEvent j (env j).is_busy :: tr', by
                rw [hbusy]; simp [htr, htr', probeEvent, hbusy]⟩,
              c :: pre, csel, rsel,
              { c with busy_externally_at := some (env j).now } :: pre',
              by simp [hcl], by simp [hi]; omega, by simp [hlen],
              by simp [hout, hcs0]⟩
          | false =>
            rw [hbusy] at h
            simp only [Bool.false_eq_true, if_false] at h
            cases h
            exact ⟨rfl, by omega, htl, hbusy, ⟨[], by simp [probeEvent, hbusy]⟩,
              [], c, rest, [], rfl, by simp, rfl, rfl⟩

/-- The element sitting right after a list's first `pre.length` entries. -/
theorem get_append_cons {α : Type} :
    ∀ (pre : List α) (x : α) (rest : List α),
      (pre ++ x :: rest).get ⟨pre.length, by simp⟩ = x := by
  intro pre
  induction pre with
  | nil => intro x rest; rfl
  | cons p ps ih => intro x rest; exact ih x rest

/-- C4: when a scanned slot's busy probe reports free, `convert` clears
that slot's busy timestamp, increments the active counter, runs the
backend conversion, then fires `notify_waiters` and decrements the counter
— the notify event is in the trace whatever the conversion result `r` is,
success or error — and the conversion's result is returned verbatim as the
final result of `convert`, with the slots after the selected one left
untouched (no retry on a different slot). -/
theorem convert_selected_behaviour :
    ∀ (timing : LoadBalancerTiming) (env : ConvertRoundEnv Nat Nat)
      (clients : List (LoadBalancedClient Nat)) (active i : Nat)
      (r : Except Nat Nat) (out : List (LoadBalancedClient Nat)) (a : Nat)
      (tr : List ScanEvent),
      convertScan timing env.slots clients active = .selected i r out a tr →
      convertStep timing env clients active = .returned r out a tr ∧
      r = (env.slots i).convert_result ∧
      (∃ tr', tr = tr' ++ [.probed_free i, .clear_busy i, .inc_active,
        .convert_call i, .notify_waiters, .dec_active]) ∧
      (∃ pre c rest pre', clients = pre ++ c :: rest ∧ i = pre.length ∧
        pre'.length = pre.length ∧
        out = pre' ++
          ({ client := c.client, busy_externally_at := none } :: rest)) := by
  intro timing env clients active i r out a tr h
  obtain ⟨hr, ha, hlk, hbz, htr, pre, c, rest, pre', hcl, hi, hlen, hout⟩ :=
    scanFrom_selected_decomp timing (decide (clients.length > 1)) env.slots
      clients 0 active i r out a tr h
  refine ⟨?_, hr, htr, pre, c, rest, pre', hcl, by simpa using hi, hlen, hout⟩
  simp only [convertStep, h]

/-- Witness for C4: a one-slot pool with a free backend; the conversion
result `.ok 42` is returned verbatim, the slot ends cleared, and the trace
shows probe, clear, increment, conversion, notify, decrement in order. -/
theorem convert_selected_behaviour_witness :
    convertStep (ε := Nat) (β := Nat) LoadBalancerTiming.default
      ⟨fun _ => ⟨true, 3, .ok false, .ok 42⟩, fun _ => true, false⟩
      [⟨5, some 1⟩] 7 =
      .returned (.ok 42) [⟨5, none⟩] 7
        [.probed_free 0, .clear_busy 0, .inc_active, .convert_call 0,
          .notify_waiters, .dec_active] :=
  (convert_selected_behaviour LoadBalancerTiming.default
    ⟨fun _ => ⟨true, 3, .ok false, .ok 42⟩, fun _ => true, false⟩
    [⟨5, some 1⟩] 7 0 (.ok 42) [⟨5, none⟩] 7
    [.probed_free 0, .clear_busy 0, .inc_active, .convert_call 0,
      .notify_waiters, .dec_active] rfl).1

/-- C7: a `convert` call whose scan selects a slot and runs the backend
conversion to completion (success or error alike) leaves the active
counter at its value before the call's increment, and the selected slot's
busy timestamp is `none` in the pool as released. -/
theorem convert_counter_and_slot_restored :
    ∀ (timing : LoadBalancerTiming) (slots : Nat → SlotEnv Nat Nat)
      (clients : List (LoadBalancedClient Nat)) (active i : Nat)
      (r : Except Nat Nat) (out : List (LoadBalancedClient Nat)) (a : Nat)
      (tr : List ScanEvent),
      convertScan timing slots clients active = .selected i r out a tr →
      a = active ∧
      ∃ hlt : i < out.length,
        (out.get ⟨i, hlt⟩).busy_externally_at = none := by
  intro timing slots clients active i r out a tr h
  obtain ⟨hr, ha, hlk, hbz, htr, pre, c, rest, pre', hcl, hi, hlen, hout⟩ :=
    scanFrom_selected_decomp timing (decide (clients.length > 1)) slots
      clients 0 active i r out a tr h
  refine ⟨ha, ?_⟩
  have hi' : i = pre'.length := by omega
  subst hi'
  subst hout
  exact ⟨by simp, by
    have := get_append_cons pre'
      ({ client := c.client, busy_externally_at := none } :
        LoadBalancedClient Nat) rest
    simpa using congrArg LoadBalancedClient.busy_externally_at this⟩

/-- Witness for C7: a failed conversion (`.error 3`) still restores the
counter and clears the slot's busy timestamp. -/
theorem convert_counter_and_slot_restored_witness :
    (4 : Nat) = 4 ∧
    ∃ hlt : 0 < ([⟨9, none⟩] : List (LoadBalancedClient Nat)).length,
      (([⟨9, none⟩] : List (LoadBalancedClient Nat)).get
        ⟨0, hlt⟩).busy_externally_at = none :=
  convert_counter_and_slot_restored LoadBalancerTiming.default
    (fun _ => ⟨true, 8, .ok false, .error 3⟩) [⟨9, some 2⟩] 4 0 (.error 3)
    [⟨9, none⟩] 4
    [.probed_free 0, .clear_busy 0, .inc_active, .convert_call 0,
      .notify_waiters, .dec_active] rfl

/-- C2: when a full scan selects no slot, the round poll-sleeps for
`retry_single_external` exactly when `is_externally_blocked` is true or
the active counter is zero; otherwise it waits on the notifier bounded by
`notify_timeout` and goes around again with unchanged state whether or not
the notifier fired, and in neither case does the round return anything to
the caller (the wait timeout is never surfaced as an error). -/
theorem convert_backoff_branch :
    ∀ (timing : LoadBalancerTiming) (slots : Nat → SlotEnv Nat Nat)
      (acq : Nat → Bool) (clients : List (LoadBalancedClient Nat))
      (active : Nat) (cs : List (LoadBalancedClient Nat)) (a : Nat)
      (tr : List ScanEvent),
      convertScan (γ := Nat) timing slots clients active =
        .exhausted cs a tr →
      (∀ fired : Bool,
        (convertStep timing ⟨slots, acq, fired⟩ clients active =
            .again cs a (.poll_sleep timing.retry_single_external)
          ↔ ((is_externally_blocked cs acq).1 = true ∨ a = 0))) ∧
      (∀ fired : Bool,
        (is_externally_blocked cs acq).1 = false → a ≠ 0 →
          convertStep timing ⟨slots, acq, fired⟩ clients active =
            .again cs a (.wait_notify timing.notify_timeout fired)) := by
  intro timing slots acq clients active cs a tr h
  have hwait : ∀ fired : Bool,
      (is_externally_blocked cs acq).1 = false → a ≠ 0 →
        convertStep timing ⟨slots, acq, fired⟩ clients active =
          .again cs a (.wait_notify timing.notify_timeout fired) := by
    intro fired hb ha
    have hcond : ((is_externally_blocked cs acq).1 || decide (a < 1))
        = false := by
      simp [hb]
      omega
    simp only [convertStep, h, hcond, Bool.false_eq_true, if_false]
  refine ⟨?_, hwait⟩
  intro fired
  constructor
  · intro heq
    by_cases hb : (is_externally_blocked cs acq).1 = true
    · exact Or.inl hb
    · by_cases ha : a = 0
      · exact Or.inr ha
      · have hb' : (is_externally_blocked cs acq).1 = false := by
          cases hx : (is_externally_blocked cs acq).1 with
          | false => rfl
          | true => exact absurd hx hb
        rw [hwait fired hb' ha] at heq
        simp at heq
  · intro hcond
    have hcond' : ((is_externally_blocked cs acq).1 || decide (a < 1))
        = true := by
      cases hcond with
      | inl hb => simp [hb]
      | inr ha => simp [ha]
    simp only [convertStep, h, hcond', if_true]

/-- Witness for C2: a pool whose single slot is locked by another caller;
the scan exhausts, the counter read is 0, so the round poll-sleeps for
`retry_single_external` (1s by default). -/
theorem convert_backoff_branch_witness :
    convertStep (γ := Nat) (ε := Nat) (β := Nat) LoadBalancerTiming.default
      ⟨fun _ => ⟨false, 0, .ok false, .ok (0 : Nat)⟩, fun _ => true, false⟩
      [⟨5, none⟩] 0 =
      .again [⟨5, none⟩] 0
        (.poll_sleep LoadBalancerTiming.default.retry_single_external) :=
  ((convert_backoff_branch LoadBalancerTiming.default
    (fun _ => ⟨false, 0, .ok false, .ok 0⟩) (fun _ => true)
    [⟨5, none⟩] 0 [⟨5, none⟩] 0 [.lock_failed 0] rfl).1 false).mpr
    (Or.inr rfl)

/-- The event trace of a prepended scan outcome. -/
theorem trace_prepend {γ ε β : Type} (c : LoadBalancedClient γ)
    (e : ScanEvent) (res : ScanResult γ ε β) :
    (res.prepend c e).trace = e :: res.trace := by
  cases res <;> rfl

/-- A probe event (busy, free or failed) is never the recent-busy skip
event. -/
theorem probeEvent_ne_skip (i k : Nat) (r : Except Unit Bool) :
    probeEvent i r ≠ .skip_recent_busy k := by
  cases r with
  | ok v => cases v <;> simp [probeEvent]
  | error u => simp [probeEvent]

/-- With a single client (`multiple_clients = false`) the recent-busy skip
condition of `load.rs` line 160 is never met. -/
theorem shouldSkipBusy_single {γ : Type} (timing : LoadBalancerTiming)
    (c : LoadBalancedClient γ) (now : Nat) :
    shouldSkipBusy timing false c now = false := by
  cases hb : c.busy_externally_at <;> simp [shouldSkipBusy, hb]

/-- An acquired slot that is not skipped always gets its busy probe: the
scan step's first trace event is the probe event for that slot. -/
theorem scanFrom_probe_trace_head {γ ε β : Type}
    (timing : LoadBalancerTiming) (mult : Bool) (env : Nat → SlotEnv ε β)
    (i active : Nat) (c : LoadBalancedClient γ)
    (rest : List (LoadBalancedClient γ))
    (htl : (env i).try_lock_ok = true)
    (hskip : shouldSkipBusy timing mult c (env i).now = false) :
    (scanFrom timing mult env i (c :: rest) active).trace.head? =
      some (probeEvent i (env i).is_busy) := by
  simp only [scanFrom, htl, hskip, Bool.false_eq_true, if_false]
  cases hb : (env i).is_busy with
  | ok v =>
    cases v with
    | true => simp [hb, trace_prepend]
    | false => simp [hb, ScanResult.trace]
  | error u => simp [hb, trace_prepend]

/-- C5: an acquired slot whose busy timestamp is set is released and
skipped (scan result = the tail's scan with the slot passed through
unchanged and only a skip event recorded, no probe) exactly when the
elapsed time since the timestamp is strictly below `retry_busy_check_after`
and there are multiple clients; and with a pool of exactly one slot the
skip never occurs — no scan trace ever contains a skip event, and whenever
the slot's lock is acquired the scan issues its busy probe. -/
theorem busy_skip_condition :
    (∀ (timing : LoadBalancerTiming) (mult : Bool)
      (env : Nat → SlotEnv Nat Nat) (i active t : Nat)
      (c : LoadBalancedClient Nat) (rest : List (LoadBalancedClient Nat)),
      (env i).try_lock_ok = true →
      c.busy_externally_at = some t →
      (scanFrom (γ := Nat) timing mult env i (c :: rest) active =
          (scanFrom timing mult env (i + 1) rest active).prepend c
            (.skip_recent_busy i)
        ↔ ((env i).now - t < timing.retry_busy_check_after ∧
            mult = true))) ∧
    (∀ (timing : LoadBalancerTiming) (env : Nat → SlotEnv Nat Nat)
      (active : Nat) (c : LoadBalancedClient Nat),
      (∀ k, ScanEvent.skip_recent_busy k ∉
        (convertScan (γ := Nat) timing env [c] active).trace) ∧
      ((env 0).try_lock_ok = true →
        (convertScan (γ := Nat) timing env [c] active).trace.head? =
          some (probeEvent 0 (env 0).is_busy))) := by
  constructor
  · intro timing mult env i active t c rest htl hbusy
    constructor
    · intro heq
      by_contra hcond
      have hskipf : shouldSkipBusy timing mult c (env i).now = false := by
        simp only [shouldSkipBusy, hbusy]
        by_cases hA : (env i).now - t < timing.retry_busy_check_after
        · have hm : mult = false := by
            cases hmm : mult with
            | false => rfl
            | true => exact absurd ⟨hA, hmm⟩ hcond
          simp [hm]
        · simp [hA]
      have hhead := scanFrom_probe_trace_head timing mult env i active c
        rest htl hskipf
      rw [heq, trace_prepend] at hhead
      simp only [List.head?] at hhead
      exact probeEvent_ne_skip i i (env i).is_busy
        (by injection hhead with h1; exact h1.symm)
    · intro hcond
      have hskipt : shouldSkipBusy timing mult c (env i).now = true := by
        simp [shouldSkipBusy, hbusy, hcond.1, hcond.2]
      simp only [scanFrom, htl, hskipt, if_true]
  · intro timing env active c
    have hm : (decide (([c] : List (LoadBalancedClient Nat)).length > 1))
        = false := rfl
    constructor
    · intro k
      show ScanEvent.skip_recent_busy k ∉
        (scanFrom timing (decide (([c] : List (LoadBalancedClient Nat)).length > 1)) env 0 [c] active).trace
      rw [hm]
      cases htl : (env 0).try_lock_ok with
      | false =>
        simp [scanFrom, htl, ScanResult.prepend, ScanResult.trace]
      | true =>
        have hskip := shouldSkipBusy_single timing c (env 0).now
        simp only [scanFrom, htl, hskip, Bool.false_eq_true, if_false]
        cases hb : (env 0).is_busy with
        | ok v =>
          cases v with
          | true =>
            simp [hb, scanFrom, ScanResult.prepend, ScanResult.trace,
              probeEvent]
          | false =>
            simp [hb, ScanResult.trace, probeEvent]
        | error u =>
          simp [hb, scanFrom, ScanResult.prepend, ScanResult.trace,
            probeEvent]
    · intro htl
      show (scanFrom timing (decide (([c] : List (LoadBalancedClient Nat)).length > 1)) env 0 [c] active).trace.head? = _
      rw [hm]
      exact scanFrom_probe_trace_head timing false env 0 active c [] htl
        (shouldSkipBusy_single timing c (env 0).now)

/-- Witness for C5: a two-client pool, first slot marked busy one
nanosecond ago — well inside the default 5-second window — is skipped
unchanged with only the skip event recorded. -/
theorem busy_skip_condition_witness :
    scanFrom (γ := Nat) (ε := Nat) (β := Nat) LoadBalancerTiming.default
      true (fun _ => ⟨true, 1, .ok false, .ok 0⟩) 0
      [⟨0, some 0⟩, ⟨1, none⟩] 2 =
      (scanFrom LoadBalancerTiming.default true
        (fun _ => ⟨true, 1, .ok false, .ok 0⟩) 1 [⟨1, none⟩] 2).prepend
        ⟨0, some 0⟩ (.skip_recent_busy 0) :=
  (busy_skip_condition.1 LoadBalancerTiming.default true
    (fun _ => ⟨true, 1, .ok false, .ok 0⟩) 0 2 0 ⟨0, some 0⟩ [⟨1, none⟩]
    rfl rfl).mpr ⟨by decide, rfl⟩

/-- A scan pass starting at index `j` consults only environment entries
with index at least `j`. -/
theorem scanFrom_env_congr {γ ε β : Type} (timing : LoadBalancerTiming)
    (mult : Bool) (env env' : Nat → SlotEnv ε β) :
    ∀ (clients : List (LoadBalancedClient γ)) (j active : Nat),
      (∀ k, j ≤ k → env' k = env k) →
      scanFrom timing mult env' j clients active =
        scanFrom timing mult env j clients active := by
  intro clients
  induction clients with
  | nil => intro j active _; rfl
  | cons c rest ih =>
    intro j active hag
    have hj : env' j = env j := hag j (Nat.le_refl j)
    have ihr : scanFrom (γ := γ) timing mult env' (j + 1) rest active =
        scanFrom timing mult env (j + 1) rest active :=
      ih (j + 1) active (fun k hk => hag k (by omega))
    simp only [scanFrom, hj, ihr]

/-- C6: a failing busy probe is handled exactly like a probe that reported
busy — the slot's busy timestamp is set to the `Instant::now()` taken
before the probe, the slot is released and the scan moves on to the next
slot with the very same continuation; only the logged trace event differs
(`probe_failed` versus `probed_busy`), and the probe's error value is
absorbed, never returned by `convert`. -/
theorem probe_failure_treated_as_busy :
    ∀ (timing : LoadBalancerTiming) (mult : Bool)
      (env : Nat → SlotEnv Nat Nat) (i active : Nat)
      (c : LoadBalancedClient Nat) (rest : List (LoadBalancedClient Nat)),
      (env i).try_lock_ok = true →
      shouldSkipBusy timing mult c (env i).now = false →
      (env i).is_busy = .error () →
      scanFrom (γ := Nat) timing mult env i (c :: rest) active =
        (scanFrom timing mult env (i + 1) rest active).prepend
          { c with busy_externally_at := some (env i).now }
          (.probe_failed i) ∧
      scanFrom (γ := Nat) timing mult
          (fun k => if k = i then { env i with is_busy := .ok true }
            else env k) i (c :: rest) active =
        (scanFrom timing mult env (i + 1) rest active).prepend
          { c with busy_externally_at := some (env i).now }
          (.probed_busy i) := by
  intro timing mult env i active c rest htl hskip hberr
  constructor
  · simp only [scanFrom, htl, hskip, Bool.false_eq_true, if_false, hberr,
      probeEvent, if_true]
  · set env' := fun k =>
      if k = i then { env i with is_busy := Except.ok true } else env k
      with henv'
    have henvi : env' i = { env i with is_busy := Except.ok true } := by
      simp [henv']
    have hcong : scanFrom (γ := Nat) timing mult env' (i + 1) rest active =
        scanFrom timing mult env (i + 1) rest active :=
      scanFrom_env_congr timing mult env env' rest (i + 1) active
        (fun k hk => by
          have hne : k ≠ i := by omega
          simp [henv', hne])
    have htl' : (env' i).try_lock_ok = true := by simp [henvi]; exact htl
    have hskip' : shouldSkipBusy timing mult c (env' i).now = false := by
      simp [henvi]; exact hskip
    have hbusy' : (env' i).is_busy = Except.ok true := by simp [henvi]
    have hnow : (env' i).now = (env i).now := by simp [henvi]
    have hstep : scanFrom (γ := Nat) timing mult env' i (c :: rest) active =
        (scanFrom timing mult env' (i + 1) rest active).prepend
          { c with busy_externally_at := some (env' i).now }
          (probeEvent i (env' i).is_busy) := by
      simp only [scanFrom, htl', hskip', Bool.false_eq_true, if_false,
        hbusy', probeEvent, if_true]
    rw [hstep, hcong, hnow, hbusy']
    rfl

/-- Witness for C6: a one-slot pool whose probe errors; the slot ends with
`busy_externally_at = some 4` (the pre-probe instant) and the scan moves
on, exactly as with an `.ok true` probe. -/
theorem probe_failure_treated_as_busy_witness :
    scanFrom (γ := Nat) (ε := Nat) (β := Nat) LoadBalancerTiming.default
      false (fun _ => ⟨true, 4, .error (), .ok 0⟩) 0 [⟨3, none⟩] 6 =
      (scanFrom LoadBalancerTiming.default false
        (fun _ => ⟨true, 4, .error (), .ok 0⟩) 1 [] 6).prepend
        ⟨3, some 4⟩ (.probe_failed 0) :=
  (probe_failure_treated_as_busy LoadBalancerTiming.default false
    (fun _ => ⟨true, 4, .error (), .ok 0⟩) 0 6 ⟨3, none⟩ [] rfl rfl rfl).1

/-- C10: `new(clients)` builds exactly
`new_with_timing(clients, LoadBalancerTiming::default())`, which is the
spec-described balancer: defaults 5s / 1s / 120s and every slot's busy
timestamp initially `none`. -/
theorem new_matches_spec :
    ∀ (γ : Type) (clients : List γ),
      OfficeConvertLoadBalancer.new clients =
        new_with_timing clients LoadBalancerTiming.default ∧
      OfficeConvertLoadBalancer.new clients = newSpec clients := by
  intro γ clients
  exact ⟨rfl, rfl⟩
